import Mathlib

/-!
# The `*stat*` compatibility layer of `src/statxx.c`

A shallow embedding of `convert_stat`, of the 64-bit-inode entry points built
on it (`stat$INODE64` ... `fstatx64_np`) and of the directory-relative entry
points (`fstatat`, `fstatat$INODE64`, `fstatat64`), followed by the properties
proved about them.

Conventions of the embedding.

* C integers are `Int` (signed fields) or `Nat` (unsigned fields).  Every
  assignment in `convert_stat` is between two fields of the same C type, with
  one exception: `st_ino`, a 32-bit `ino_t` in `struct stat` and a 64-bit
  `__uint64_t` in `struct stat64`; the conversion is written as `% 2 ^ 64`.
* A pointer to a caller-owned record is a value passed in and returned.
* The identifier `in` is reserved in Lean, so the first parameter of
  `convert_stat` is called `inp`.  `$` cannot occur in a Lean name, so
  `stat$INODE64` is `stat_INODE64`, and likewise for its siblings.
* C has separate name spaces for `struct stat` and the function `stat`;
  the records are `struct_stat` and `struct_stat64` here.
-/

namespace Statxx

/-! ## Records -/

/-- The C `struct timespec`: whole seconds and the nanosecond remainder. -/
structure timespec where
  tv_sec : Int
  tv_nsec : Int
  deriving DecidableEq, Repr

/-- The narrow record, `struct stat` under `_DARWIN_NO_64_BIT_INODE`. -/
structure struct_stat where
  st_dev : Int
  st_ino : Nat
  st_mode : Nat
  st_nlink : Nat
  st_uid : Nat
  st_gid : Nat
  st_rdev : Int
  st_atimespec : timespec
  st_mtimespec : timespec
  st_ctimespec : timespec
  st_size : Int
  st_blocks : Int
  st_blksize : Int
  st_flags : Nat
  st_gen : Nat
  st_lspare : Int
  st_qspare : Fin 2 → Int

/-- The wide record, `struct stat64` (`__DARWIN_STRUCT_STAT64`). -/
structure struct_stat64 where
  st_dev : Int
  st_mode : Nat
  st_nlink : Nat
  st_ino : Nat
  st_uid : Nat
  st_gid : Nat
  st_rdev : Int
  st_atimespec : timespec
  st_mtimespec : timespec
  st_ctimespec : timespec
  st_birthtimespec : timespec
  st_size : Int
  st_blocks : Int
  st_blksize : Int
  st_flags : Nat
  st_gen : Nat
  st_lspare : Int
  st_qspare : Fin 2 → Int

/-! ## The record translator -/

/-- The function `convert_stat(in, out, status)`: the statements of the C body
in their order, each one an update of the record behind `out`.  The result is
the returned status together with the record left behind `out`. -/
def convert_stat (inp : struct_stat) (out : struct_stat64) (status : Int) :
    Int × struct_stat64 :=
  let out := { out with st_dev := inp.st_dev }
  let out := { out with st_mode := inp.st_mode }
  let out := { out with st_nlink := inp.st_nlink }
  let out := { out with st_ino := inp.st_ino % 2 ^ 64 }
  let out := { out with st_uid := inp.st_uid }
  let out := { out with st_gid := inp.st_gid }
  let out := { out with st_rdev := inp.st_rdev }
  let out := { out with st_atimespec := inp.st_atimespec }
  let out := { out with st_mtimespec := inp.st_mtimespec }
  let out := { out with st_ctimespec := inp.st_ctimespec }
  let out :=
    if inp.st_ctimespec.tv_sec < inp.st_mtimespec.tv_sec
        ∨ (inp.st_ctimespec.tv_sec = inp.st_mtimespec.tv_sec
            ∧ inp.st_ctimespec.tv_nsec < inp.st_mtimespec.tv_nsec) then
      { out with st_birthtimespec := inp.st_ctimespec }
    else
      { out with st_birthtimespec := inp.st_mtimespec }
  let out := { out with st_size := inp.st_size }
  let out := { out with st_blocks := inp.st_blocks }
  let out := { out with st_blksize := inp.st_blksize }
  let out := { out with st_flags := inp.st_flags }
  let out := { out with st_gen := inp.st_gen }
  let out := { out with st_lspare := 0 }
  let out := { out with st_qspare := Function.update out.st_qspare 0 0 }
  let out := { out with st_qspare := Function.update out.st_qspare 1 0 }
  (status, out)

/-! ## The process around the entry points -/

/-- What the entry points share with the operating system: the state of the
system behind the calls (any type `W`) and the C variable `errno`. -/
structure Machine (W : Type) where
  world : W
  errno : Int

/-- One invocation of a collaborator, with the arguments it was given. -/
inductive Call where
  | stat (path : String)
  | lstat (path : String)
  | fstat (fildes : Int)
  | statx_np (path : String) (fsec : Nat)
  | lstatx_np (path : String) (fsec : Nat)
  | fstatx_np (fildes : Int) (fsec : Nat)
  | ATCALL (fd : Int) (path : String)
  deriving DecidableEq, Repr

/-- A running process: the machine, and the collaborator invocations made so
far, oldest first.  The list is bookkeeping of the embedding: nothing in the
C code reads it. -/
structure Proc (W : Type) where
  mach : Machine W
  trace : List Call

/-- A call that works on a caller-supplied record of type `B`: from the record
and the process before the call to the returned `int`, the record and the
process after it. -/
abbrev Action (W B : Type) := B → Proc W → Int × B × Proc W

/-- A narrow system call with its leading arguments fixed: from the contents of
the `struct stat` it is handed and the machine to its status, the record it
leaves and the machine after it. -/
abbrev Syscall (W : Type) := struct_stat → Machine W → Int × struct_stat × Machine W

/-- Everything `statxx.c` uses and does not define.  The six narrow calls come
from the C library; `stbuf` gives the indeterminate contents of the automatic
variable `struct stat stbuf` on entry; `AT_SYMLINK_NOFOLLOW` and `EINVAL` are
header constants; `ATCALL` is the macro of `atcalls.h`, which receives the
handle, the path and the call expression to run relative to the handle. -/
structure Env (W : Type) where
  stat : String → Syscall W
  lstat : String → Syscall W
  fstat : Int → Syscall W
  statx_np : String → Nat → Syscall W
  lstatx_np : String → Nat → Syscall W
  fstatx_np : Int → Nat → Syscall W
  stbuf : Machine W → struct_stat
  AT_SYMLINK_NOFOLLOW : Int
  EINVAL : Int
  ATCALL : {B : Type} → Int → String → Action W B → Action W B

variable {W : Type}

/-- Run a narrow system call on the record `buf` and enter it in the trace. -/
def narrow (c : Call) (f : Syscall W) : Action W struct_stat := fun buf p =>
  let r := f buf p.mach
  (r.1, r.2.1, { mach := r.2.2, trace := p.trace ++ [c] })

/-- The call `stat(path, buf)` of the C library. -/
def stat (E : Env W) (path : String) : Action W struct_stat :=
  narrow (Call.stat path) (E.stat path)

/-- The call `lstat(path, buf)` of the C library. -/
def lstat (E : Env W) (path : String) : Action W struct_stat :=
  narrow (Call.lstat path) (E.lstat path)

/-- The call `fstat(fildes, buf)` of the C library. -/
def fstat (E : Env W) (fildes : Int) : Action W struct_stat :=
  narrow (Call.fstat fildes) (E.fstat fildes)

/-- The call `statx_np(path, buf, fsec)` of the C library. -/
def statx_np (E : Env W) (path : String) (buf : struct_stat) (fsec : Nat) (p : Proc W) :
    Int × struct_stat × Proc W :=
  narrow (Call.statx_np path fsec) (E.statx_np path fsec) buf p

/-- The call `lstatx_np(path, buf, fsec)` of the C library. -/
def lstatx_np (E : Env W) (path : String) (buf : struct_stat) (fsec : Nat) (p : Proc W) :
    Int × struct_stat × Proc W :=
  narrow (Call.lstatx_np path fsec) (E.lstatx_np path fsec) buf p

/-- The call `fstatx_np(fildes, buf, fsec)` of the C library. -/
def fstatx_np (E : Env W) (fildes : Int) (buf : struct_stat) (fsec : Nat) (p : Proc W) :
    Int × struct_stat × Proc W :=
  narrow (Call.fstatx_np fildes fsec) (E.fstatx_np fildes fsec) buf p

/-! ## The 64-bit-inode entry points

Each C body is `struct stat stbuf; return convert_stat(&stbuf, buf, f(..., &stbuf));`.
The argument `f(..., &stbuf)` is evaluated first and fills `stbuf`; then
`convert_stat` reads `stbuf` and writes `*buf`. -/

/-- The function `stat$INODE64(path, buf)`. -/
def stat_INODE64 (E : Env W) (path : String) : Action W struct_stat64 := fun buf p =>
  let stbuf := E.stbuf p.mach
  let r := stat E path stbuf p
  let c := convert_stat r.2.1 buf r.1
  (c.1, c.2, r.2.2)

/-- The function `lstat$INODE64(path, buf)`. -/
def lstat_INODE64 (E : Env W) (path : String) : Action W struct_stat64 := fun buf p =>
  let stbuf := E.stbuf p.mach
  let r := lstat E path stbuf p
  let c := convert_stat r.2.1 buf r.1
  (c.1, c.2, r.2.2)

/-- The function `fstat$INODE64(fildes, buf)`. -/
def fstat_INODE64 (E : Env W) (fildes : Int) : Action W struct_stat64 := fun buf p =>
  let stbuf := E.stbuf p.mach
  let r := fstat E fildes stbuf p
  let c := convert_stat r.2.1 buf r.1
  (c.1, c.2, r.2.2)

/-- The function `statx_np$INODE64(path, buf, fsec)`. -/
def statx_np_INODE64 (E : Env W) (path : String) (buf : struct_stat64) (fsec : Nat)
    (p : Proc W) : Int × struct_stat64 × Proc W :=
  let stbuf := E.stbuf p.mach
  let r := statx_np E path stbuf fsec p
  let c := convert_stat r.2.1 buf r.1
  (c.1, c.2, r.2.2)

/-- The function `lstatx_np$INODE64(path, buf, fsec)`. -/
def lstatx_np_INODE64 (E : Env W) (path : String) (buf : struct_stat64) (fsec : Nat)
    (p : Proc W) : Int × struct_stat64 × Proc W :=
  let stbuf := E.stbuf p.mach
  let r := lstatx_np E path stbuf fsec p
  let c := convert_stat r.2.1 buf r.1
  (c.1, c.2, r.2.2)

/-- The function `fstatx_np$INODE64(fildes, buf, fsec)`. -/
def fstatx_np_INODE64 (E : Env W) (fildes : Int) (buf : struct_stat64) (fsec : Nat)
    (p : Proc W) : Int × struct_stat64 × Proc W :=
  let stbuf := E.stbuf p.mach
  let r := fstatx_np E fildes stbuf fsec p
  let c := convert_stat r.2.1 buf r.1
  (c.1, c.2, r.2.2)

/-- The function `stat64(path, buf)`. -/
def stat64 (E : Env W) (path : String) : Action W struct_stat64 := fun buf p =>
  let stbuf := E.stbuf p.mach
  let r := stat E path stbuf p
  let c := convert_stat r.2.1 buf r.1
  (c.1, c.2, r.2.2)

/-- The function `lstat64(path, buf)`. -/
def lstat64 (E : Env W) (path : String) : Action W struct_stat64 := fun buf p =>
  let stbuf := E.stbuf p.mach
  let r := lstat E path stbuf p
  let c := convert_stat r.2.1 buf r.1
  (c.1, c.2, r.2.2)

/-- The function `fstat64(fildes, buf)`. -/
def fstat64 (E : Env W) (fildes : Int) : Action W struct_stat64 := fun buf p =>
  let stbuf := E.stbuf p.mach
  let r := fstat E fildes stbuf p
  let c := convert_stat r.2.1 buf r.1
  (c.1, c.2, r.2.2)

/-- The function `statx64_np(path, buf, fsec)`. -/
def statx64_np (E : Env W) (path : String) (buf : struct_stat64) (fsec : Nat)
    (p : Proc W) : Int × struct_stat64 × Proc W :=
  let stbuf := E.stbuf p.mach
  let r := statx_np E path stbuf fsec p
  let c := convert_stat r.2.1 buf r.1
  (c.1, c.2, r.2.2)

/-- The function `lstatx64_np(path, buf, fsec)`. -/
def lstatx64_np (E : Env W) (path : String) (buf : struct_stat64) (fsec : Nat)
    (p : Proc W) : Int × struct_stat64 × Proc W :=
  let stbuf := E.stbuf p.mach
  let r := lstatx_np E path stbuf fsec p
  let c := convert_stat r.2.1 buf r.1
  (c.1, c.2, r.2.2)

/-- The function `fstatx64_np(fildes, buf, fsec)`. -/
def fstatx64_np (E : Env W) (fildes : Int) (buf : struct_stat64) (fsec : Nat)
    (p : Proc W) : Int × struct_stat64 × Proc W :=
  let stbuf := E.stbuf p.mach
  let r := fstatx_np E fildes stbuf fsec p
  let c := convert_stat r.2.1 buf r.1
  (c.1, c.2, r.2.2)

/-! ## The directory-relative entry points -/

/-- Modelled from the spec: the macro `ERR_ON` of `atcalls.h`, which is not
among the sources.  The spec has the entry point, when an unrecognised flag
bit is set, fail immediately with the invalid-argument condition and attempt
no underlying call: when the condition `what` is non-zero, `errno` becomes
`code` and the enclosing function returns `-1` (the `some` case, holding the
returned value and the process); otherwise control continues (`none`). -/
def ERR_ON (code : Int) (what : Int) (p : Proc W) : Option (Int × Proc W) :=
  if what ≠ 0 then
    some (-1, { p with mach := { p.mach with errno := code } })
  else
    none

/-- The macro invocation `ATCALL(fd, path, what)`: the invocation is entered in
the trace and the macro of the environment runs with the call expression. -/
def ATCALL (E : Env W) {B : Type} (fd : Int) (path : String) (what : Action W B) :
    Action W B := fun buf p =>
  E.ATCALL fd path what buf { p with trace := p.trace ++ [Call.ATCALL fd path] }

/-- The function `fstatat(fd, path, buf, flag)`.  The C operators `&` and `~`
on `int` are `Int.land` and `Int.lnot` (two's complement), and a C condition
holds when its value is non-zero. -/
def fstatat (E : Env W) (fd : Int) (path : String) (buf : struct_stat) (flag : Int)
    (p : Proc W) : Int × struct_stat × Proc W :=
  match ERR_ON E.EINVAL (Int.land flag (Int.lnot E.AT_SYMLINK_NOFOLLOW)) p with
  | some r => (r.1, buf, r.2)
  | none =>
    if Int.land flag E.AT_SYMLINK_NOFOLLOW ≠ 0 then
      ATCALL E fd path (lstat E path) buf p
    else
      ATCALL E fd path (stat E path) buf p

/-- The function `fstatat$INODE64(fd, path, buf, flag)`. -/
def fstatat_INODE64 (E : Env W) (fd : Int) (path : String) (buf : struct_stat64)
    (flag : Int) (p : Proc W) : Int × struct_stat64 × Proc W :=
  match ERR_ON E.EINVAL (Int.land flag (Int.lnot E.AT_SYMLINK_NOFOLLOW)) p with
  | some r => (r.1, buf, r.2)
  | none =>
    if Int.land flag E.AT_SYMLINK_NOFOLLOW ≠ 0 then
      ATCALL E fd path (lstat_INODE64 E path) buf p
    else
      ATCALL E fd path (stat_INODE64 E path) buf p

/-- The function `fstatat64(fd, path, buf, flag)`. -/
def fstatat64 (E : Env W) (fd : Int) (path : String) (buf : struct_stat64)
    (flag : Int) (p : Proc W) : Int × struct_stat64 × Proc W :=
  match ERR_ON E.EINVAL (Int.land flag (Int.lnot E.AT_SYMLINK_NOFOLLOW)) p with
  | some r => (r.1, buf, r.2)
  | none =>
    if Int.land flag E.AT_SYMLINK_NOFOLLOW ≠ 0 then
      ATCALL E fd path (lstat64 E path) buf p
    else
      ATCALL E fd path (stat64 E path) buf p

/-! ## A concrete narrow record and a concrete environment -/

/-- A narrow record as `stat` fills it for a regular file, with non-zero
spare fields. -/
def sample_stat : struct_stat :=
  { st_dev := 234881026
    st_ino := 4242
    st_mode := 33188
    st_nlink := 1
    st_uid := 501
    st_gid := 20
    st_rdev := 0
    st_atimespec := ⟨120, 7⟩
    st_mtimespec := ⟨100, 200⟩
    st_ctimespec := ⟨100, 500⟩
    st_size := 1024
    st_blocks := 8
    st_blksize := 4096
    st_flags := 0
    st_gen := 0
    st_lspare := 7
    st_qspare := fun _ => 9 }

/-- A wide record holding left-over values in every field. -/
def sample_stat64 : struct_stat64 :=
  { st_dev := 3
    st_mode := 3
    st_nlink := 3
    st_ino := 3
    st_uid := 3
    st_gid := 3
    st_rdev := 3
    st_atimespec := ⟨3, 3⟩
    st_mtimespec := ⟨3, 3⟩
    st_ctimespec := ⟨3, 3⟩
    st_birthtimespec := ⟨3, 3⟩
    st_size := 3
    st_blocks := 3
    st_blksize := 3
    st_flags := 3
    st_gen := 3
    st_lspare := 3
    st_qspare := fun _ => 3 }

/-- An environment over a one-point world: every narrow call succeeds and
leaves `sample_stat`, the only recognised flag bit is `0x01`, `EINVAL` is 22
and `ATCALL` runs the call expression it is given. -/
def sample_env : Env Unit :=
  { stat := fun _ _ m => (0, sample_stat, m)
    lstat := fun _ _ m => (0, sample_stat, m)
    fstat := fun _ _ m => (0, sample_stat, m)
    statx_np := fun _ _ _ m => (0, sample_stat, m)
    lstatx_np := fun _ _ _ m => (0, sample_stat, m)
    fstatx_np := fun _ _ _ m => (0, sample_stat, m)
    stbuf := fun _ => sample_stat
    AT_SYMLINK_NOFOLLOW := 1
    EINVAL := 22
    ATCALL := fun _ _ what => what }

/-- A process that has made no call yet. -/
def sample_proc : Proc Unit :=
  { mach := { world := (), errno := 0 }, trace := [] }

/-! ## Vocabulary of the properties -/

/-- The composition the wide entry points are compared with: `r` is what the
narrow call `c` returned (status, narrow record, machine); the result is the
status and wide record `convert_stat` makes of them from the caller's `buf`,
in a process whose trace has gained the one entry `c`. -/
def translated (r : Int × struct_stat × Machine W) (buf : struct_stat64) (p : Proc W)
    (c : Call) : Int × struct_stat64 × Proc W :=
  ((convert_stat r.2.1 buf r.1).1, (convert_stat r.2.1 buf r.1).2,
    { mach := r.2.2, trace := p.trace ++ [c] })

/-- The outcome of a directory-relative call that fails with the
invalid-argument condition before anything else happens: `-1` is returned,
`errno` holds `code`, and the record, the world and the trace are as before. -/
def rejected {B : Type} (code : Int) (buf : B) (p : Proc W) : Int × B × Proc W :=
  (-1, buf, { mach := { world := p.mach.world, errno := code }, trace := p.trace })

/-- The seconds-then-nanoseconds key of a timestamp, in the lexicographic
order of pairs. -/
def ts_key (t : timespec) : Lex (Int × Int) :=
  toLex (t.tv_sec, t.tv_nsec)

/-- The instant a timestamp denotes, in nanoseconds since the epoch. -/
def instant (t : timespec) : Int :=
  t.tv_sec * 1000000000 + t.tv_nsec

/-! ## Facts about `convert_stat` used by several properties -/

theorem convert_stat_birth (inp : struct_stat) (out : struct_stat64) (status : Int) :
    (convert_stat inp out status).2.st_birthtimespec =
      if inp.st_ctimespec.tv_sec < inp.st_mtimespec.tv_sec
          ∨ (inp.st_ctimespec.tv_sec = inp.st_mtimespec.tv_sec
              ∧ inp.st_ctimespec.tv_nsec < inp.st_mtimespec.tv_nsec) then
        inp.st_ctimespec
      else
        inp.st_mtimespec := by
  unfold convert_stat
  split_ifs <;> rfl

theorem convert_stat_record (inp : struct_stat) (out : struct_stat64) (status : Int) :
    (convert_stat inp out status).2 =
      { st_dev := inp.st_dev
        st_mode := inp.st_mode
        st_nlink := inp.st_nlink
        st_ino := inp.st_ino % 2 ^ 64
        st_uid := inp.st_uid
        st_gid := inp.st_gid
        st_rdev := inp.st_rdev
        st_atimespec := inp.st_atimespec
        st_mtimespec := inp.st_mtimespec
        st_ctimespec := inp.st_ctimespec
        st_birthtimespec :=
          if inp.st_ctimespec.tv_sec < inp.st_mtimespec.tv_sec
              ∨ (inp.st_ctimespec.tv_sec = inp.st_mtimespec.tv_sec
                  ∧ inp.st_ctimespec.tv_nsec < inp.st_mtimespec.tv_nsec) then
            inp.st_ctimespec
          else
            inp.st_mtimespec
        st_size := inp.st_size
        st_blocks := inp.st_blocks
        st_blksize := inp.st_blksize
        st_flags := inp.st_flags
        st_gen := inp.st_gen
        st_lspare := 0
        st_qspare := Function.update (Function.update out.st_qspare 0 0) 1 0 } := by
  unfold convert_stat
  split_ifs <;> rfl

theorem ts_key_lt_iff (a b : timespec) :
    ts_key a < ts_key b ↔
      a.tv_sec < b.tv_sec ∨ (a.tv_sec = b.tv_sec ∧ a.tv_nsec < b.tv_nsec) := by
  unfold ts_key
  exact Prod.Lex.lt_iff _ _

/-! ## Properties of the record translator -/

/-- C1: the birth timestamp written by `convert_stat` is the change-time when
the change-time is below the modify-time in the seconds-then-nanoseconds
order, and the modify-time when the change-time is at or above it; when the two
are equal it equals both.  With change-time (100, 500) and modify-time
(100, 200) it is (100, 200); with change-time (90, 0) and modify-time (100, 0)
it is (90, 0). -/
theorem convert_stat_birthtime (inp : struct_stat) (out : struct_stat64) (status : Int) :
    (ts_key inp.st_ctimespec < ts_key inp.st_mtimespec →
      (convert_stat inp out status).2.st_birthtimespec = inp.st_ctimespec) ∧
    (ts_key inp.st_mtimespec ≤ ts_key inp.st_ctimespec →
      (convert_stat inp out status).2.st_birthtimespec = inp.st_mtimespec) ∧
    (inp.st_ctimespec = inp.st_mtimespec →
      (convert_stat inp out status).2.st_birthtimespec = inp.st_ctimespec ∧
      (convert_stat inp out status).2.st_birthtimespec = inp.st_mtimespec) ∧
    (inp.st_ctimespec = ⟨100, 500⟩ → inp.st_mtimespec = ⟨100, 200⟩ →
      (convert_stat inp out status).2.st_birthtimespec = ⟨100, 200⟩) ∧
    (inp.st_ctimespec = ⟨90, 0⟩ → inp.st_mtimespec = ⟨100, 0⟩ →
      (convert_stat inp out status).2.st_birthtimespec = ⟨90, 0⟩) := by
  refine ⟨?_, ?_, ?_, ?_, ?_⟩
  · intro h
    rw [convert_stat_birth, if_pos ((ts_key_lt_iff _ _).mp h)]
  · intro h
    rw [convert_stat_birth, if_neg (fun hc => not_lt.mpr h ((ts_key_lt_iff _ _).mpr hc))]
  · intro h
    rw [convert_stat_birth, h]
    simp
  · intro hc hm
    rw [convert_stat_birth, hc, hm]
    decide
  · intro hc hm
    rw [convert_stat_birth, hc, hm]
    decide

theorem convert_stat_birthtime_witness :
    ts_key sample_stat.st_mtimespec ≤ ts_key sample_stat.st_ctimespec ∧
    (convert_stat sample_stat sample_stat64 0).2.st_birthtimespec = ⟨100, 200⟩ :=
  have h : ts_key sample_stat.st_mtimespec ≤ ts_key sample_stat.st_ctimespec :=
    (Prod.Lex.le_iff _ _).mpr (Or.inr ⟨rfl, by decide⟩)
  ⟨h, (convert_stat_birthtime sample_stat sample_stat64 0).2.1 h⟩

/-- C2: every directly copied field of the record written by `convert_stat`
equals its source field in the narrow record, and the 64-bit `st_ino` has the
numeric value of the narrow `st_ino` whenever that value fits in 32 bits. -/
theorem convert_stat_copies (inp : struct_stat) (out : struct_stat64) (status : Int) :
    (convert_stat inp out status).2.st_dev = inp.st_dev ∧
    (convert_stat inp out status).2.st_mode = inp.st_mode ∧
    (convert_stat inp out status).2.st_nlink = inp.st_nlink ∧
    (inp.st_ino < 2 ^ 32 → (convert_stat inp out status).2.st_ino = inp.st_ino) ∧
    (convert_stat inp out status).2.st_uid = inp.st_uid ∧
    (convert_stat inp out status).2.st_gid = inp.st_gid ∧
    (convert_stat inp out status).2.st_rdev = inp.st_rdev ∧
    (convert_stat inp out status).2.st_atimespec = inp.st_atimespec ∧
    (convert_stat inp out status).2.st_mtimespec = inp.st_mtimespec ∧
    (convert_stat inp out status).2.st_ctimespec = inp.st_ctimespec ∧
    (convert_stat inp out status).2.st_size = inp.st_size ∧
    (convert_stat inp out status).2.st_blocks = inp.st_blocks ∧
    (convert_stat inp out status).2.st_blksize = inp.st_blksize ∧
    (convert_stat inp out status).2.st_flags = inp.st_flags ∧
    (convert_stat inp out status).2.st_gen = inp.st_gen := by
  have h64 : inp.st_ino < 2 ^ 32 → inp.st_ino % 2 ^ 64 = inp.st_ino :=
    fun hino => Nat.mod_eq_of_lt (lt_trans hino (by norm_num))
  rw [convert_stat_record]
  exact ⟨rfl, rfl, rfl, h64, rfl, rfl, rfl, rfl, rfl, rfl, rfl, rfl, rfl, rfl, rfl⟩

theorem convert_stat_copies_witness :
    sample_stat.st_ino < 2 ^ 32 ∧
    (convert_stat sample_stat sample_stat64 0).2.st_ino = 4242 ∧
    (convert_stat sample_stat sample_stat64 0).2.st_size = 1024 :=
  ⟨by decide,
    (convert_stat_copies sample_stat sample_stat64 0).2.2.2.1 (by decide),
    (convert_stat_copies sample_stat sample_stat64 0).2.2.2.2.2.2.2.2.2.2.1⟩

/-- C3: whatever the narrow record, the status and the previous contents of
the wide record, `convert_stat` leaves `st_lspare`, `st_qspare[0]` and
`st_qspare[1]` equal to zero. -/
theorem convert_stat_reserved_zero (inp : struct_stat) (out : struct_stat64) (status : Int) :
    (convert_stat inp out status).2.st_lspare = 0 ∧
    (convert_stat inp out status).2.st_qspare 0 = 0 ∧
    (convert_stat inp out status).2.st_qspare 1 = 0 := by
  rw [convert_stat_record]
  refine ⟨rfl, ?_, ?_⟩ <;> simp [Function.update]

/-- C8: the record written by `convert_stat` does not depend on the status.
For any two statuses, success or failure, the record left behind `out` is the
same, and for every status it is the translated record: each copied field
taken from the narrow record, `st_ino` widened, the birth timestamp the
earlier of change-time and modify-time, and the reserved fields zeroed.  The
translation is thus performed in full when the status reports failure. -/
theorem convert_stat_record_status_independent (inp : struct_stat) (out : struct_stat64)
    (s1 s2 : Int) :
    (convert_stat inp out s1).2 = (convert_stat inp out s2).2 ∧
    (∀ status : Int,
      (convert_stat inp out status).2 =
        { st_dev := inp.st_dev
          st_mode := inp.st_mode
          st_nlink := inp.st_nlink
          st_ino := inp.st_ino % 2 ^ 64
          st_uid := inp.st_uid
          st_gid := inp.st_gid
          st_rdev := inp.st_rdev
          st_atimespec := inp.st_atimespec
          st_mtimespec := inp.st_mtimespec
          st_ctimespec := inp.st_ctimespec
          st_birthtimespec :=
            if inp.st_ctimespec.tv_sec < inp.st_mtimespec.tv_sec
                ∨ (inp.st_ctimespec.tv_sec = inp.st_mtimespec.tv_sec
                    ∧ inp.st_ctimespec.tv_nsec < inp.st_mtimespec.tv_nsec) then
              inp.st_ctimespec
            else
              inp.st_mtimespec
          st_size := inp.st_size
          st_blocks := inp.st_blocks
          st_blksize := inp.st_blksize
          st_flags := inp.st_flags
          st_gen := inp.st_gen
          st_lspare := 0
          st_qspare := fun _ => 0 }) := by
  refine ⟨rfl, fun status => ?_⟩
  rw [convert_stat_record]
  have hq : Function.update (Function.update out.st_qspare 0 0) 1 0 = fun _ => (0 : Int) := by
    funext i
    fin_cases i <;> simp [Function.update]
  rw [hq]

/-- C10: when the nanosecond parts of the change-time and of the modify-time
lie in [0, 10^9), the instant of the birth timestamp written by `convert_stat`
is the minimum of the instants of the change-time and of the modify-time. -/
theorem convert_stat_birth_instant_min (inp : struct_stat) (out : struct_stat64)
    (status : Int)
    (hc0 : 0 ≤ inp.st_ctimespec.tv_nsec) (hc1 : inp.st_ctimespec.tv_nsec < 10 ^ 9)
    (hm0 : 0 ≤ inp.st_mtimespec.tv_nsec) (hm1 : inp.st_mtimespec.tv_nsec < 10 ^ 9) :
    instant (convert_stat inp out status).2.st_birthtimespec =
      min (instant inp.st_ctimespec) (instant inp.st_mtimespec) := by
  norm_num at hc1 hm1
  rw [convert_stat_birth]
  unfold instant
  split_ifs with h
  · rw [min_def]
    split_ifs <;> omega
  · rw [min_def]
    split_ifs <;> omega

theorem convert_stat_birth_instant_min_witness :
    (0 ≤ sample_stat.st_ctimespec.tv_nsec ∧ sample_stat.st_ctimespec.tv_nsec < 10 ^ 9 ∧
      0 ≤ sample_stat.st_mtimespec.tv_nsec ∧ sample_stat.st_mtimespec.tv_nsec < 10 ^ 9) ∧
    instant (convert_stat sample_stat sample_stat64 0).2.st_birthtimespec =
      min (instant sample_stat.st_ctimespec) (instant sample_stat.st_mtimespec) :=
  ⟨⟨by decide, by decide, by decide, by decide⟩,
    convert_stat_birth_instant_min sample_stat sample_stat64 0
      (by decide) (by decide) (by decide) (by decide)⟩

/-! ## Properties of the 64-bit-inode entry points -/

/-- C4: every wide entry point returns exactly the status its narrow call
returned, whatever the arguments and whatever the narrow call does; and
`convert_stat(in, out, status)` returns `status` for every integer status. -/
theorem wide_entry_status_passthrough (E : Env W) (path : String) (fildes : Int)
    (fsec : Nat) (buf : struct_stat64) (p : Proc W) :
    (stat_INODE64 E path buf p).1 = (E.stat path (E.stbuf p.mach) p.mach).1 ∧
    (lstat_INODE64 E path buf p).1 = (E.lstat path (E.stbuf p.mach) p.mach).1 ∧
    (fstat_INODE64 E fildes buf p).1 = (E.fstat fildes (E.stbuf p.mach) p.mach).1 ∧
    (statx_np_INODE64 E path buf fsec p).1
      = (E.statx_np path fsec (E.stbuf p.mach) p.mach).1 ∧
    (lstatx_np_INODE64 E path buf fsec p).1
      = (E.lstatx_np path fsec (E.stbuf p.mach) p.mach).1 ∧
    (fstatx_np_INODE64 E fildes buf fsec p).1
      = (E.fstatx_np fildes fsec (E.stbuf p.mach) p.mach).1 ∧
    (stat64 E path buf p).1 = (E.stat path (E.stbuf p.mach) p.mach).1 ∧
    (lstat64 E path buf p).1 = (E.lstat path (E.stbuf p.mach) p.mach).1 ∧
    (fstat64 E fildes buf p).1 = (E.fstat fildes (E.stbuf p.mach) p.mach).1 ∧
    (statx64_np E path buf fsec p).1
      = (E.statx_np path fsec (E.stbuf p.mach) p.mach).1 ∧
    (lstatx64_np E path buf fsec p).1
      = (E.lstatx_np path fsec (E.stbuf p.mach) p.mach).1 ∧
    (fstatx64_np E fildes buf fsec p).1
      = (E.fstatx_np fildes fsec (E.stbuf p.mach) p.mach).1 ∧
    (∀ (inp : struct_stat) (out : struct_stat64) (status : Int),
      (convert_stat inp out status).1 = status) :=
  ⟨rfl, rfl, rfl, rfl, rfl, rfl, rfl, rfl, rfl, rfl, rfl, rfl, fun _ _ _ => rfl⟩

/-- C7: every wide entry point is the record translator composed after its
narrow call: the narrow call is invoked exactly once, with the caller's
arguments and the local narrow record, and the entry point returns the result
of `convert_stat` on the record and status of that call and leaves the wide
record `convert_stat` produces. -/
theorem wide_entry_is_translation (E : Env W) (path : String) (fildes : Int)
    (fsec : Nat) (buf : struct_stat64) (p : Proc W) :
    stat_INODE64 E path buf p
      = translated (E.stat path (E.stbuf p.mach) p.mach) buf p (Call.stat path) ∧
    lstat_INODE64 E path buf p
      = translated (E.lstat path (E.stbuf p.mach) p.mach) buf p (Call.lstat path) ∧
    fstat_INODE64 E fildes buf p
      = translated (E.fstat fildes (E.stbuf p.mach) p.mach) buf p (Call.fstat fildes) ∧
    statx_np_INODE64 E path buf fsec p
      = translated (E.statx_np path fsec (E.stbuf p.mach) p.mach) buf p
          (Call.statx_np path fsec) ∧
    lstatx_np_INODE64 E path buf fsec p
      = translated (E.lstatx_np path fsec (E.stbuf p.mach) p.mach) buf p
          (Call.lstatx_np path fsec) ∧
    fstatx_np_INODE64 E fildes buf fsec p
      = translated (E.fstatx_np fildes fsec (E.stbuf p.mach) p.mach) buf p
          (Call.fstatx_np fildes fsec) ∧
    stat64 E path buf p
      = translated (E.stat path (E.stbuf p.mach) p.mach) buf p (Call.stat path) ∧
    lstat64 E path buf p
      = translated (E.lstat path (E.stbuf p.mach) p.mach) buf p (Call.lstat path) ∧
    fstat64 E fildes buf p
      = translated (E.fstat fildes (E.stbuf p.mach) p.mach) buf p (Call.fstat fildes) ∧
    statx64_np E path buf fsec p
      = translated (E.statx_np path fsec (E.stbuf p.mach) p.mach) buf p
          (Call.statx_np path fsec) ∧
    lstatx64_np E path buf fsec p
      = translated (E.lstatx_np path fsec (E.stbuf p.mach) p.mach) buf p
          (Call.lstatx_np path fsec) ∧
    fstatx64_np E fildes buf fsec p
      = translated (E.fstatx_np fildes fsec (E.stbuf p.mach) p.mach) buf p
          (Call.fstatx_np fildes fsec) :=
  ⟨rfl, rfl, rfl, rfl, rfl, rfl, rfl, rfl, rfl, rfl, rfl, rfl⟩

/-! ## Properties of the directory-relative entry points -/

theorem land_lnot_ne_zero (flag n : Int)
    (h : ∃ i, Int.testBit flag i = true ∧ Int.testBit n i = false) :
    Int.land flag (Int.lnot n) ≠ 0 := by
  obtain ⟨i, hf, hn⟩ := h
  intro h0
  have hb : Int.testBit (Int.land flag (Int.lnot n)) i = true := by
    rw [Int.testBit_land, Int.testBit_lnot, hf, hn]
    rfl
  rw [h0] at hb
  have hz : Int.testBit 0 i = false := Nat.zero_testBit i
  rw [hz] at hb
  exact Bool.false_ne_true hb

theorem land_lnot_self (n : Int) : Int.land n (Int.lnot n) = 0 := by
  have hl : ∀ m : Nat, Nat.ldiff m m = 0 := fun m =>
    Nat.eq_of_testBit_eq (fun i => by simp [Nat.testBit_ldiff])
  cases n with
  | ofNat m =>
    show ((Nat.ldiff m m : Nat) : Int) = 0
    rw [hl]
    rfl
  | negSucc m =>
    show ((Nat.ldiff m m : Nat) : Int) = 0
    rw [hl]
    rfl

theorem land_self (n : Int) : Int.land n n = n := by
  cases n with
  | ofNat m =>
    show ((m &&& m : Nat) : Int) = Int.ofNat m
    rw [Nat.and_self]
    rfl
  | negSucc m =>
    show Int.negSucc (m ||| m) = Int.negSucc m
    rw [Nat.or_self]

theorem zero_land (n : Int) : Int.land 0 n = 0 := by
  cases n with
  | ofNat m =>
    show ((0 &&& m : Nat) : Int) = 0
    rw [Nat.zero_and]
    rfl
  | negSucc m =>
    show ((Nat.ldiff 0 m : Nat) : Int) = 0
    have hl : Nat.ldiff 0 m = 0 :=
      Nat.eq_of_testBit_eq (fun i => by simp [Nat.testBit_ldiff])
    rw [hl]
    rfl

theorem ERR_ON_of_ne_zero (code what : Int) (p : Proc W) (h : what ≠ 0) :
    ERR_ON code what p = some (-1, { p with mach := { p.mach with errno := code } }) := by
  unfold ERR_ON
  rw [if_pos h]

theorem ERR_ON_zero (code : Int) (p : Proc W) : ERR_ON code 0 p = none := by
  unfold ERR_ON
  simp

/-- C5: when the flag has a bit set that is not a bit of
`AT_SYMLINK_NOFOLLOW` (whether or not the no-follow bit is set as well), each
of `fstatat`, `fstatat$INODE64` and `fstatat64` returns `-1` with `errno` set
to `EINVAL`, and leaves the record, the world and the trace untouched: no
narrow call, hence no wide query, and no `ATCALL` has been made. -/
theorem fstatat_rejects_unknown_flags (E : Env W) (fd : Int) (path : String)
    (nbuf : struct_stat) (buf : struct_stat64) (flag : Int) (p : Proc W)
    (h : ∃ i, Int.testBit flag i = true ∧ Int.testBit E.AT_SYMLINK_NOFOLLOW i = false) :
    fstatat E fd path nbuf flag p = rejected E.EINVAL nbuf p ∧
    fstatat_INODE64 E fd path buf flag p = rejected E.EINVAL buf p ∧
    fstatat64 E fd path buf flag p = rejected E.EINVAL buf p := by
  have hne := land_lnot_ne_zero flag E.AT_SYMLINK_NOFOLLOW h
  refine ⟨?_, ?_, ?_⟩
  · unfold fstatat
    rw [ERR_ON_of_ne_zero _ _ _ hne]
    rfl
  · unfold fstatat_INODE64
    rw [ERR_ON_of_ne_zero _ _ _ hne]
    rfl
  · unfold fstatat64
    rw [ERR_ON_of_ne_zero _ _ _ hne]
    rfl

theorem fstatat_rejects_unknown_flags_witness :
    (Int.testBit 2 1 = true ∧ Int.testBit sample_env.AT_SYMLINK_NOFOLLOW 1 = false) ∧
    (fstatat sample_env 3 "f" sample_stat 2 sample_proc).1 = -1 ∧
    (fstatat sample_env 3 "f" sample_stat 2 sample_proc).2.2.mach.errno = 22 ∧
    (fstatat sample_env 3 "f" sample_stat 2 sample_proc).2.2.trace = [] ∧
    (fstatat_INODE64 sample_env 3 "f" sample_stat64 2 sample_proc).1 = -1 ∧
    (fstatat64 sample_env 3 "f" sample_stat64 2 sample_proc).1 = -1 :=
  have h := fstatat_rejects_unknown_flags sample_env 3 "f" sample_stat sample_stat64 2
    sample_proc ⟨1, by decide, by decide⟩
  ⟨⟨by decide, by decide⟩, by rw [h.1]; rfl, by rw [h.1]; rfl, by rw [h.1]; rfl,
    by rw [h.2.1]; rfl, by rw [h.2.2]; rfl⟩

/-- C6: with a non-zero `AT_SYMLINK_NOFOLLOW`, a flag equal to it makes each
directory-relative entry point the no-follow query of its own shape run
through `ATCALL` on the handle and path, and a flag of 0 makes it the
follow-symlink query run the same way; in both cases the outcome is the
outcome of `ATCALL`, with no error originated by the entry point. -/
theorem fstatat_dispatch (E : Env W) (fd : Int) (path : String)
    (hN : E.AT_SYMLINK_NOFOLLOW ≠ 0) :
    (∀ buf p, fstatat E fd path buf E.AT_SYMLINK_NOFOLLOW p
        = ATCALL E fd path (lstat E path) buf p) ∧
    (∀ buf p, fstatat E fd path buf 0 p = ATCALL E fd path (stat E path) buf p) ∧
    (∀ buf p, fstatat_INODE64 E fd path buf E.AT_SYMLINK_NOFOLLOW p
        = ATCALL E fd path (lstat_INODE64 E path) buf p) ∧
    (∀ buf p, fstatat_INODE64 E fd path buf 0 p
        = ATCALL E fd path (stat_INODE64 E path) buf p) ∧
    (∀ buf p, fstatat64 E fd path buf E.AT_SYMLINK_NOFOLLOW p
        = ATCALL E fd path (lstat64 E path) buf p) ∧
    (∀ buf p, fstatat64 E fd path buf 0 p = ATCALL E fd path (stat64 E path) buf p) := by
  have hself : Int.land E.AT_SYMLINK_NOFOLLOW E.AT_SYMLINK_NOFOLLOW ≠ 0 := by
    rw [land_self]
    exact hN
  refine ⟨?_, ?_, ?_, ?_, ?_, ?_⟩ <;> intro buf p
  · unfold fstatat
    rw [land_lnot_self, ERR_ON_zero]
    exact if_pos hself
  · unfold fstatat
    rw [zero_land, zero_land, ERR_ON_zero]
    exact if_neg (fun hc => hc rfl)
  · unfold fstatat_INODE64
    rw [land_lnot_self, ERR_ON_zero]
    exact if_pos hself
  · unfold fstatat_INODE64
    rw [zero_land, zero_land, ERR_ON_zero]
    exact if_neg (fun hc => hc rfl)
  · unfold fstatat64
    rw [land_lnot_self, ERR_ON_zero]
    exact if_pos hself
  · unfold fstatat64
    rw [zero_land, zero_land, ERR_ON_zero]
    exact if_neg (fun hc => hc rfl)

theorem fstatat_dispatch_witness :
    sample_env.AT_SYMLINK_NOFOLLOW = 1 ∧
    fstatat sample_env 3 "f" sample_stat sample_env.AT_SYMLINK_NOFOLLOW sample_proc
      = ATCALL sample_env 3 "f" (lstat sample_env "f") sample_stat sample_proc ∧
    (fstatat sample_env 3 "f" sample_stat 1 sample_proc).2.2.trace
      = [Call.ATCALL 3 "f", Call.lstat "f"] ∧
    (fstatat_INODE64 sample_env 3 "f" sample_stat64 0 sample_proc).1 = 0 ∧
    (fstatat_INODE64 sample_env 3 "f" sample_stat64 0 sample_proc).2.2.trace
      = [Call.ATCALL 3 "f", Call.stat "f"] :=
  have h := fstatat_dispatch sample_env 3 "f" (by decide)
  ⟨rfl, h.1 sample_stat sample_proc,
    (congrArg (fun r => r.2.2.trace) (h.1 sample_stat sample_proc)).trans rfl,
    (congrArg (fun r => r.1) (h.2.2.2.1 sample_stat64 sample_proc)).trans rfl,
    (congrArg (fun r => r.2.2.trace) (h.2.2.2.1 sample_stat64 sample_proc)).trans rfl⟩

/-- C9: `fstatat64` is the same function as `fstatat$INODE64`, and the calls
it dispatches to, `stat64` and `lstat64`, are the same functions as
`stat$INODE64` and `lstat$INODE64`: same status, same `errno`, same wide
record and same collaborator invocations for all arguments and environments. -/
theorem fstatat64_eq_fstatat_INODE64 (E : Env W) :
    fstatat64 E = fstatat_INODE64 E ∧
    stat64 E = stat_INODE64 E ∧
    lstat64 E = lstat_INODE64 E :=
  ⟨rfl, rfl, rfl⟩

end Statxx
